import Mathlib

/-!
Verification of the `autolysis.py` batch pipeline (load CSV → profile →
visualize → narrate via remote completion → write README.md).

The script is embedded shallowly: every call into an external library
(pandas, seaborn/matplotlib, requests, the filesystem) is an effect whose
outcome is supplied by an `Env` oracle, and the script's own control flow
(the try/except structure, the order of prints, saves, the single HTTP
post, and the final report write) is translated faithfully from
`src/autolysis.py`.  A run produces an ordered trace of observable events
plus a termination status (`sys.exit` code, or an uncaught exception).
-/

namespace Autolysis

/-- The in-memory table produced by `pd.read_csv`, abstracted to what the
script observes of it: the rendered `describe(include='all').to_dict()`
string, the rendered `isnull().sum().to_dict()` string, whether
`select_dtypes(include=['float64','int64'])` is empty, and the rendered
`corr().to_dict()` string for the numeric subset. -/
structure Dataset where
  summaryStr : String
  missingStr : String
  numericEmpty : Bool
  corrStr : String
deriving DecidableEq

/-- Outcome of `pd.read_csv(filename, encoding='utf-8')` (line 36):
success, a `UnicodeDecodeError` (the only exception the first handler
catches), or any other exception with its message. -/
inductive Utf8Outcome where
  | ok (d : Dataset)
  | unicodeError
  | otherError (msg : String)
deriving DecidableEq

/-- Outcome of the fallback `pd.read_csv(filename, encoding='ISO-8859-1')`
(line 41); its handler catches every `Exception`. -/
inductive FallbackOutcome where
  | ok (d : Dataset)
  | err (msg : String)
deriving DecidableEq

/-- Where, if anywhere, the first visualization block (lines 65-75) raises.
The assignment `correlation_matrix = numeric_cols.corr()` is line 67, the
`plt.savefig` is line 71, the `image_paths.append` is line 72 and
`plt.close` is line 73, so an exception can hit before the assignment,
after the assignment but before the file was saved, or after the save and
append (at `plt.close`). -/
inductive CorrBlockOutcome where
  | ok
  | failBeforeAssign (msg : String)
  | failAfterAssign (msg : String)
  | failAtClose (msg : String)
deriving DecidableEq

/-- Where, if anywhere, one of the other two visualization blocks
(lines 78-87 and 90-99) raises: before its `plt.savefig` succeeded, or
at the final `plt.close` (after the save and the append). -/
inductive VizBlockOutcome where
  | ok
  | failBeforeSave (msg : String)
  | failAtClose (msg : String)
deriving DecidableEq

deriving instance DecidableEq for Except

/-- Outcome of the `requests.post` call and subsequent parsing
(lines 134-142): either the request itself raises, or a response arrives
with a status code, a body text, and — consulted only on status 200 —
the result of extracting `result['choices'][0]['message']['content']`
(`Except.error` models a malformed body making `.json()` or the
indexing raise). -/
inductive HttpOutcome where
  | exn (msg : String)
  | resp (status : Nat) (text : String) (content : Except String String)
deriving DecidableEq

/-- Outcome of the README write block (lines 152-161), at the granularity
of its filesystem effects.  `open(readme_path, "w")` creates (or
truncates) `README.md` before anything is written, so the block can fail
in two observably different ways: the `open` itself raises and no file is
created (`openFail`), or an exception at one of the `f.write` calls or at
the flush on close leaves `README.md` on disk holding whatever bytes had
been flushed (`midFail`, with `onDisk` the file's content at that moment
— the model places no constraint on it, since write buffering is outside
the program's control). -/
inductive WriteOutcome where
  | ok
  | openFail (msg : String)
  | midFail (onDisk : String) (msg : String)
deriving DecidableEq

/-- The oracle for one process run: the environment variable, `sys.argv`
(program name included), and the outcome of every external effect the
script performs, in program order. -/
structure Env where
  token : Option String
  argv : List String
  utf8Load : Utf8Outcome
  fallbackLoad : FallbackOutcome
  corrBlock : CorrBlockOutcome
  missingBlock : VizBlockOutcome
  boxBlock : VizBlockOutcome
  http : HttpOutcome
  readmeWrite : WriteOutcome
deriving DecidableEq

/-- Observable events of a run, in order: a line printed to stdout, a PNG
written by `plt.savefig`, the single HTTP POST (carrying the prompt text),
and a file written whole (the README). -/
inductive Event where
  | print (s : String)
  | saveImage (name : String)
  | httpPost (prompt : String)
  | writeFile (name : String) (content : String)
deriving DecidableEq

/-- How the process ends: `sys.exit(code)` (falling off the end is
`exited 0`), or an exception propagating uncaught out of the script. -/
inductive Termination where
  | exited (code : Nat)
  | uncaught (msg : String)
deriving DecidableEq

/-- A run: its ordered event trace and its termination. -/
structure RunResult where
  events : List Event
  exit : Termination
deriving DecidableEq

/-- `os.path.basename` on the character list: the suffix after the last
`'/'`. -/
def basenameList (cs : List Char) : List Char :=
  ((cs.reverse.takeWhile (fun c => c ≠ '/')).reverse)

/-- `os.path.basename`. -/
def basename (s : String) : String :=
  String.mk (basenameList s.data)

/-- The stem of `os.path.splitext` on a basename: cut at the last dot,
except when every character before that dot is itself a dot (so names
such as `.bashrc` keep their dot). -/
def splitextStemList (cs : List Char) : List Char :=
  let rev := cs.reverse
  let extRev := rev.takeWhile (fun c => c ≠ '.')
  if extRev.length = rev.length then cs
  else
    let preRev := rev.drop (extRev.length + 1)
    if preRev.any (fun c => c ≠ '.') then preRev.reverse else cs

/-- `os.path.splitext(os.path.basename(filename))[0]` (line 48). -/
def datasetNameOf (filename : String) : String :=
  String.mk (splitextStemList (basenameList filename.data))

/-- Filename of the correlation heatmap PNG (line 70). -/
def corrImage (name : String) : String :=
  name ++ "_correlation_heatmap.png"

/-- Filename of the missing-values heatmap PNG (line 82). -/
def missingImage (name : String) : String :=
  name ++ "_missing_values_heatmap.png"

/-- Filename of the boxplot PNG (line 94). -/
def boxImage (name : String) : String :=
  name ++ "_boxplot.png"

/-- State accumulated by the visualization section (lines 55-99): its
events, the `image_paths` list, and the `correlation_matrix` variable
(rendered as its `to_dict()` string when non-None). -/
structure VizState where
  events : List Event
  imagePaths : List String
  corrMatrix : Option String
deriving DecidableEq

/-- The first visualization block (lines 65-75): on success it saves the
heatmap PNG and appends its name; on an exception it prints the error,
and `correlation_matrix` keeps the value it had when the exception was
raised. -/
def corrBlockRun (name : String) (d : Dataset) (o : CorrBlockOutcome) :
    List Event × List String × Option String :=
  match o with
  | .ok =>
      ([Event.saveImage (corrImage name)], [corrImage name], some d.corrStr)
  | .failBeforeAssign m =>
      ([Event.print ("Error generating correlation heatmap: " ++ m)], [], none)
  | .failAfterAssign m =>
      ([Event.print ("Error generating correlation heatmap: " ++ m)], [], some d.corrStr)
  | .failAtClose m =>
      ([Event.saveImage (corrImage name),
        Event.print ("Error generating correlation heatmap: " ++ m)],
       [corrImage name], some d.corrStr)

/-- One of the later visualization blocks: save-and-append on success,
print-and-continue on an exception. -/
def vizBlockRun (img : String) (label : String) (o : VizBlockOutcome) :
    List Event × List String :=
  match o with
  | .ok => ([Event.saveImage img], [img])
  | .failBeforeSave m => ([Event.print (label ++ m)], [])
  | .failAtClose m => ([Event.saveImage img, Event.print (label ++ m)], [img])

/-- The whole visualization section (lines 55-99): when the numeric subset
is empty only the warning is printed; otherwise the three blocks run in
order, each tolerating its own failure. -/
def vizRun (name : String) (d : Dataset) (env : Env) : VizState :=
  if d.numericEmpty then
    { events := [Event.print "Warning: No numeric columns found in the dataset. Skipping correlation analysis, boxplot, and heatmaps."],
      imagePaths := [], corrMatrix := none }
  else
    let r1 := corrBlockRun name d env.corrBlock
    let r2 := vizBlockRun (missingImage name) "Error generating missing values heatmap: " env.missingBlock
    let r3 := vizBlockRun (boxImage name) "Error generating boxplot: " env.boxBlock
    { events := r1.1 ++ r2.1 ++ r3.1,
      imagePaths := r1.2.1 ++ r2.2 ++ r3.2,
      corrMatrix := r1.2.2 }

/-- Everything of the prompt f-string (lines 103-121) strictly before the
correlation-matrix interpolation. -/
def promptIntro (name summaryStr missingStr : String) : String :=
  "\n        Below is the analysis summary for the dataset " ++ name ++
  ":\n        \n        **Summary Statistics:** " ++ summaryStr ++
  "\n        **Missing Values:** " ++ missingStr ++
  "\n        **Correlation Matrix:** "

/-- Everything of the prompt f-string after the correlation-matrix
interpolation. -/
def promptOutro : String :=
  "\n\n        **Key Visual Insights:**\n        1. **Correlation Heatmap**: Displays relationships between variables.\n        2. **Missing Values Heatmap**: Highlights gaps in data.\n        3. **Boxplot**: Identifies potential outliers and variable distributions.\n\n        Write a business-focused report based on these insights:\n        - Summarize key findings and any surprising trends.\n        - Suggest specific actions or improvements based on patterns.\n        - Explain how this data can guide strategic decisions or improvements.\n        \n        Please format the response in Markdown style for easy presentation.\n        "

/-- The full prompt (lines 103-121): the `correlation_matrix.to_dict()`
rendering when the variable is non-None, the literal `'N/A'` otherwise. -/
def promptFor (name summaryStr missingStr : String) (corr : Option String) : String :=
  promptIntro name summaryStr missingStr ++
  (match corr with | some c => c | none => "N/A") ++
  promptOutro

/-- One image-embed line of the README (line 161). -/
def imageLine (p : String) : String :=
  "![" ++ basename p ++ "](" ++ basename p ++ ")\n"

/-- The full text written to `README.md` (lines 155-161). -/
def readmeContent (name story : String) (imagePaths : List String) : String :=
  "# Analysis of " ++ name ++ "\n\n" ++
  "## Dataset Insights and Recommendations\n\n" ++
  "### Business Report\n" ++
  story ++
  "\n\n### Visualizations\n" ++
  String.join (imagePaths.map imageLine)

/-- The report-saving block (lines 152-166): on success the full report
is on disk and the completion line is printed; if `open` raises, no file
appears; if a later write (or the close) raises, `README.md` is on disk
with whatever content made it there (the `open(..., "w")` already
truncated or created it).  Either failure is caught at line 164, printed,
and exits 1. -/
def reporterRun (name story : String) (imagePaths : List String) (env : Env) :
    RunResult :=
  match env.readmeWrite with
  | .ok =>
      { events := [Event.writeFile "README.md" (readmeContent name story imagePaths),
                   Event.print ("Analysis complete for " ++ name ++ ". Outputs saved in the current directory.")],
        exit := .exited 0 }
  | .openFail m =>
      { events := [Event.print ("Error saving README.md: " ++ m)],
        exit := .exited 1 }
  | .midFail onDisk m =>
      { events := [Event.writeFile "README.md" onDisk,
                   Event.print ("Error saving README.md: " ++ m)],
        exit := .exited 1 }

/-- The narration block (lines 101-148) from the response onward, then the
report: non-200 prints the status error and exits 1 (the `sys.exit` is a
`SystemExit`, which `except Exception` does not catch); an exception from
the request or from parsing is caught at line 146 and exits 1; a parsed
content is stripped and handed to the reporter. -/
def narratorReporterRun (name : String) (imagePaths : List String) (env : Env) :
    RunResult :=
  match env.http with
  | .exn m =>
      { events := [Event.print ("Error with LLM generation: " ++ m)], exit := .exited 1 }
  | .resp status text content =>
      if status = 200 then
        match content with
        | .error m =>
            { events := [Event.print ("Error with LLM generation: " ++ m)], exit := .exited 1 }
        | .ok c => reporterRun name (c.trim) imagePaths env
      else
        { events := [Event.print ("Error: " ++ toString status ++ ", " ++ text)], exit := .exited 1 }

/-- Body of `analyze_csv` after a successful load (lines 47-166): derive
the dataset name, run the visualization section, build the prompt, make
the single HTTP POST, then narrate and report. -/
def afterLoad (filename : String) (d : Dataset) (env : Env) : RunResult :=
  let name := datasetNameOf filename
  let viz := vizRun name d env
  let prompt := promptFor name d.summaryStr d.missingStr viz.corrMatrix
  let r := narratorReporterRun name viz.imagePaths env
  { events := viz.events ++ Event.httpPost prompt :: r.events, exit := r.exit }

/-- `analyze_csv` (lines 29-166).  A UTF-8 success or a fallback success
prints its status line and continues; a `UnicodeDecodeError` followed by a
fallback failure prints the load error and exits 1; any other exception of
the first attempt is caught by neither handler and propagates. -/
def analyze_csv (filename : String) (env : Env) : RunResult :=
  match env.utf8Load with
  | .ok d =>
      let r := afterLoad filename d env
      { events := Event.print ("Successfully loaded dataset: " ++ filename) :: r.events,
        exit := r.exit }
  | .unicodeError =>
      match env.fallbackLoad with
      | .ok d =>
          let r := afterLoad filename d env
          { events := Event.print ("Successfully loaded dataset with ISO-8859-1 encoding: " ++ filename) :: r.events,
            exit := r.exit }
      | .err m =>
          { events := [Event.print ("Error loading dataset: " ++ m)], exit := .exited 1 }
  | .otherError m => { events := [], exit := .uncaught m }

/-- The falsiness test of `if not AIPROXY_TOKEN` (line 22): unset, or set
to the empty string. -/
def tokenFalsy (t : Option String) : Bool :=
  match t with
  | none => true
  | some s => s.isEmpty

/-- `sys.argv[1]`, defined on the branch where the length check passed. -/
def inputFile (env : Env) : String :=
  env.argv.getD 1 ""

/-- The whole process (lines 21-24 run at import time, then the
`__main__` block, lines 168-174): the token check comes first, then the
argument-count check, then `analyze_csv`. -/
def runScript (env : Env) : RunResult :=
  if tokenFalsy env.token then
    { events := [Event.print "Error: AIPROXY_TOKEN environment variable not set."],
      exit := .exited 1 }
  else if env.argv.length ≠ 2 then
    { events := [Event.print "Usage: python autolysis.py <dataset.csv>"],
      exit := .exited 1 }
  else
    analyze_csv (inputFile env) env

/-- `true` when the trace writes a (whole) file of the given name. -/
def writesFile (evs : List Event) (name : String) : Bool :=
  evs.any (fun e => match e with | .writeFile n _ => n = name | _ => false)

/-- `true` when the trace saves a PNG of the given name. -/
def savesImage (evs : List Event) (f : String) : Bool :=
  evs.any (fun e => match e with | .saveImage n => n = f | _ => false)

/-- `true` when the trace prints the given line. -/
def printsMsg (evs : List Event) (s : String) : Bool :=
  evs.any (fun e => match e with | .print m => m = s | _ => false)

/-- `true` when the trace touches the filesystem at all. -/
def anyFileIO (evs : List Event) : Bool :=
  evs.any (fun e => match e with
    | .saveImage _ => true
    | .writeFile _ _ => true
    | _ => false)

/-- `true` when the trace makes a network call. -/
def anyNetwork (evs : List Event) : Bool :=
  evs.any (fun e => match e with | .httpPost _ => true | _ => false)

/-- The image files the run leaves on disk, in save order (nothing in the
script ever deletes a file). -/
def imagesSaved (evs : List Event) : List String :=
  evs.filterMap (fun e => match e with | .saveImage n => some n | _ => none)

/-- Nonzero `sys.exit`, or an uncaught exception (which also ends the
interpreter with a nonzero status). -/
def exitsNonzero (t : Termination) : Bool :=
  match t with
  | .exited c => c ≠ 0
  | .uncaught _ => true

/-- The remote interaction failed: request exception, non-200 status, or
a 200 whose body does not parse to a content string. -/
def httpBad (o : HttpOutcome) : Bool :=
  match o with
  | .exn _ => true
  | .resp status _ content =>
      (status ≠ 200 : Bool) || (match content with | .error _ => true | .ok _ => false)

/-- The dataset the loader hands to the rest of the pipeline, when it
succeeds: either directly from the UTF-8 attempt, or from the fallback
after a `UnicodeDecodeError`. -/
def loadsDataset (env : Env) (d : Dataset) : Prop :=
  env.utf8Load = .ok d ∨
    (env.utf8Load = .unicodeError ∧ env.fallbackLoad = .ok d)

/-- The `correlation_matrix` assignment (line 67) completed. -/
def corrAssigned (o : CorrBlockOutcome) : Bool :=
  match o with
  | .failBeforeAssign _ => false
  | _ => true

/-! ### Stage lemmas -/

/-- With the token present and exactly one positional argument, the run is
the body of `analyze_csv` on that argument. -/
theorem runScript_eq_analyze (env : Env)
    (htok : tokenFalsy env.token = false) (hargv : env.argv.length = 2) :
    runScript env = analyze_csv (inputFile env) env := by
  simp [runScript, htok, hargv]

/-- The narration/report stage never saves an image. -/
theorem narrator_no_images (name : String) (imgs : List String) (env : Env) :
    imagesSaved (narratorReporterRun name imgs env).events = [] := by
  unfold narratorReporterRun
  cases env.http with
  | exn m => simp [imagesSaved]
  | resp s t c =>
      by_cases hs : s = 200
      · cases c with
        | error m => simp [hs, imagesSaved]
        | ok c =>
            cases hw : env.readmeWrite <;>
              simp [hs, reporterRun, hw, imagesSaved]
      · simp [hs, imagesSaved]

/-- On a failed remote interaction, the narration/report stage writes no
file and exits nonzero. -/
theorem narrator_httpBad (name : String) (imgs : List String) (env : Env)
    (h : httpBad env.http = true) :
    writesFile (narratorReporterRun name imgs env).events "README.md" = false ∧
    exitsNonzero (narratorReporterRun name imgs env).exit = true := by
  unfold narratorReporterRun
  cases hh : env.http with
  | exn m => simp [writesFile, exitsNonzero]
  | resp s t c =>
      rw [hh] at h
      by_cases hs : s = 200
      · subst hs
        cases c with
        | error m => simp [writesFile, exitsNonzero]
        | ok c => simp [httpBad] at h
      · simp [hs, writesFile, exitsNonzero]

/-- A README write stage whose `open` raises writes no file and exits 1. -/
theorem narrator_openFail (name : String) (imgs : List String) (env : Env)
    (m : String) (hw : env.readmeWrite = .openFail m) :
    writesFile (narratorReporterRun name imgs env).events "README.md" = false ∧
    exitsNonzero (narratorReporterRun name imgs env).exit = true := by
  unfold narratorReporterRun
  cases env.http with
  | exn m => simp [writesFile, exitsNonzero]
  | resp s t c =>
      by_cases hs : s = 200
      · cases c with
        | error m => simp [hs, writesFile, exitsNonzero]
        | ok c => simp [hs, reporterRun, hw, writesFile, exitsNonzero]
      · simp [hs, writesFile, exitsNonzero]

/-- When the remote interaction did not fail, the response has status 200
and a parsed content. -/
theorem httpGood_shape (o : HttpOutcome) (h : httpBad o = false) :
    ∃ t c, o = .resp 200 t (.ok c) := by
  cases o with
  | exn m => simp [httpBad] at h
  | resp s t c =>
      cases c with
      | error m => simp [httpBad] at h
      | ok c =>
          simp [httpBad] at h
          exact ⟨t, c, by rw [h]⟩

/-- After a good response, a README write stage that fails mid-write
leaves a `README.md` holding the flushed content on disk and exits 1. -/
theorem narrator_midFail (name : String) (imgs : List String) (env : Env)
    (p m : String) (hb : httpBad env.http = false)
    (hw : env.readmeWrite = .midFail p m) :
    Event.writeFile "README.md" p ∈ (narratorReporterRun name imgs env).events ∧
    exitsNonzero (narratorReporterRun name imgs env).exit = true := by
  obtain ⟨t, c, hh⟩ := httpGood_shape env.http hb
  unfold narratorReporterRun
  rw [hh]
  simp [reporterRun, hw, exitsNonzero]

/-- The visualization section never writes a (whole) file. -/
theorem viz_no_writeFile (name : String) (d : Dataset) (env : Env) (n : String) :
    writesFile (vizRun name d env).events n = false := by
  unfold vizRun
  by_cases hne : d.numericEmpty
  · simp [hne, writesFile]
  · cases env.corrBlock <;> cases env.missingBlock <;> cases env.boxBlock <;>
      simp [hne, corrBlockRun, vizBlockRun, writesFile]

/-- The images the visualization section saves are exactly the entries of
`image_paths`, in order. -/
theorem viz_images_eq (name : String) (d : Dataset) (env : Env) :
    imagesSaved (vizRun name d env).events = (vizRun name d env).imagePaths := by
  unfold vizRun
  by_cases hne : d.numericEmpty
  · simp [hne, imagesSaved]
  · cases env.corrBlock <;> cases env.missingBlock <;> cases env.boxBlock <;>
      simp [hne, corrBlockRun, vizBlockRun, imagesSaved]

/-! ### Trace bookkeeping lemmas -/

theorem writesFile_append (a b : List Event) (n : String) :
    writesFile (a ++ b) n = (writesFile a n || writesFile b n) := by
  simp [writesFile]

theorem writesFile_cons_print (s : String) (l : List Event) (n : String) :
    writesFile (Event.print s :: l) n = writesFile l n := by
  simp [writesFile]

theorem writesFile_cons_post (s : String) (l : List Event) (n : String) :
    writesFile (Event.httpPost s :: l) n = writesFile l n := by
  simp [writesFile]

theorem imagesSaved_append (a b : List Event) :
    imagesSaved (a ++ b) = imagesSaved a ++ imagesSaved b := by
  simp [imagesSaved]

theorem imagesSaved_cons_print (s : String) (l : List Event) :
    imagesSaved (Event.print s :: l) = imagesSaved l := by
  simp [imagesSaved]

theorem imagesSaved_cons_post (s : String) (l : List Event) :
    imagesSaved (Event.httpPost s :: l) = imagesSaved l := by
  simp [imagesSaved]

/-- The trace of the pipeline after a successful load: the visualization
events, the one HTTP POST carrying the prompt, then the narration/report
events. -/
theorem afterLoad_events (f : String) (d : Dataset) (env : Env) :
    (afterLoad f d env).events =
      (vizRun (datasetNameOf f) d env).events ++
        Event.httpPost (promptFor (datasetNameOf f) d.summaryStr d.missingStr
          (vizRun (datasetNameOf f) d env).corrMatrix) ::
        (narratorReporterRun (datasetNameOf f)
          (vizRun (datasetNameOf f) d env).imagePaths env).events := rfl

/-- The pipeline after a successful load terminates however the
narration/report stage terminates. -/
theorem afterLoad_exit (f : String) (d : Dataset) (env : Env) :
    (afterLoad f d env).exit =
      (narratorReporterRun (datasetNameOf f)
        (vizRun (datasetNameOf f) d env).imagePaths env).exit := rfl

/-- No event before the narration/report stage writes a whole file. -/
theorem afterLoad_writesFile (f : String) (d : Dataset) (env : Env) :
    writesFile (afterLoad f d env).events "README.md" =
      writesFile (narratorReporterRun (datasetNameOf f)
        (vizRun (datasetNameOf f) d env).imagePaths env).events "README.md" := by
  rw [afterLoad_events, writesFile_append, writesFile_cons_post,
    viz_no_writeFile, Bool.false_or]

/-- The images a full post-load run saves are exactly the entries of
`image_paths` from the visualization section. -/
theorem afterLoad_images (f : String) (d : Dataset) (env : Env) :
    imagesSaved (afterLoad f d env).events =
      (vizRun (datasetNameOf f) d env).imagePaths := by
  rw [afterLoad_events, imagesSaved_append, imagesSaved_cons_post,
    viz_images_eq, narrator_no_images, List.append_nil]

/-! ### Concrete environments for witnesses and counterexamples -/

/-- A dataset with a nonempty numeric subset. -/
def dsMain : Dataset :=
  { summaryStr := "S", missingStr := "M", numericEmpty := false, corrStr := "C" }

/-- A fully successful run environment. -/
def envBase : Env :=
  { token := some "tok", argv := ["autolysis.py", "data.csv"],
    utf8Load := .ok dsMain, fallbackLoad := .ok dsMain,
    corrBlock := .ok, missingBlock := .ok, boxBlock := .ok,
    http := .resp 200 "body" (.ok "Hello world"),
    readmeWrite := .ok }

/-! ### Claims -/

/-- Claim C7: when the required environment variable `AIPROXY_TOKEN` is
absent, the process terminates with a nonzero status immediately — the
trace is the single error line, with no file I/O and no network call. -/
theorem missing_token_halts_immediately (env : Env) (h : env.token = none) :
    runScript env =
      { events := [Event.print "Error: AIPROXY_TOKEN environment variable not set."],
        exit := .exited 1 } ∧
    anyFileIO (runScript env).events = false ∧
    anyNetwork (runScript env).events = false ∧
    exitsNonzero (runScript env).exit = true := by
  have hr : runScript env =
      { events := [Event.print "Error: AIPROXY_TOKEN environment variable not set."],
        exit := .exited 1 } := by
    simp [runScript, h, tokenFalsy]
  refine ⟨hr, ?_, ?_, ?_⟩ <;> rw [hr] <;> rfl

/-- Witness for claim C7 at a concrete environment. -/
theorem missing_token_halts_immediately_w :
    runScript { envBase with token := none } =
      { events := [Event.print "Error: AIPROXY_TOKEN environment variable not set."],
        exit := .exited 1 } ∧
    anyFileIO (runScript { envBase with token := none }).events = false ∧
    anyNetwork (runScript { envBase with token := none }).events = false ∧
    exitsNonzero (runScript { envBase with token := none }).exit = true :=
  missing_token_halts_immediately { envBase with token := none } rfl

/-- The invocation refuting claim C8 as stated: no token and a wrong
argument count. -/
def envUsageNoToken : Env :=
  { envBase with token := none, argv := ["autolysis.py"] }

/-- Claim C8 counterexample: with the token absent and a wrong argument
count, the usage message is never printed (the run exits on the
missing-token error first), so not every wrong-argument-count invocation
prints usage. -/
theorem usage_on_wrong_argc_counterexample :
    envUsageNoToken.argv.length ≠ 2 ∧
    printsMsg (runScript envUsageNoToken).events
      "Usage: python autolysis.py <dataset.csv>" = false ∧
    exitsNonzero (runScript envUsageNoToken).exit = true := by
  decide

/-- Claim C8 (amended): for every invocation with the token present whose
argument count differs from exactly one positional argument, the program
prints the usage message and exits nonzero, without loading any dataset
(no file I/O, no network, no other event at all). -/
theorem usage_on_wrong_argc (env : Env)
    (htok : tokenFalsy env.token = false) (h : env.argv.length ≠ 2) :
    runScript env =
      { events := [Event.print "Usage: python autolysis.py <dataset.csv>"],
        exit := .exited 1 } ∧
    anyFileIO (runScript env).events = false ∧
    anyNetwork (runScript env).events = false := by
  have hr : runScript env =
      { events := [Event.print "Usage: python autolysis.py <dataset.csv>"],
        exit := .exited 1 } := by
    simp [runScript, htok, h]
  refine ⟨hr, ?_, ?_⟩ <;> rw [hr] <;> rfl

/-- Witness for claim C8 (amended) at a concrete environment. -/
theorem usage_on_wrong_argc_w :
    runScript { envBase with argv := ["autolysis.py"] } =
      { events := [Event.print "Usage: python autolysis.py <dataset.csv>"],
        exit := .exited 1 } ∧
    anyFileIO (runScript { envBase with argv := ["autolysis.py"] }).events = false ∧
    anyNetwork (runScript { envBase with argv := ["autolysis.py"] }).events = false :=
  usage_on_wrong_argc { envBase with argv := ["autolysis.py"] } rfl (by decide)

/-- Claim C9: the token check runs before command-line validation — with
the token absent and a wrong argument count, the run exits on the
missing-token error and the usage message is never printed. -/
theorem token_check_precedes_usage (env : Env)
    (h1 : env.token = none) (h2 : env.argv.length ≠ 2) :
    runScript env =
      { events := [Event.print "Error: AIPROXY_TOKEN environment variable not set."],
        exit := .exited 1 } ∧
    printsMsg (runScript env).events
      "Usage: python autolysis.py <dataset.csv>" = false := by
  have hr : runScript env =
      { events := [Event.print "Error: AIPROXY_TOKEN environment variable not set."],
        exit := .exited 1 } := by
    simp [runScript, h1, tokenFalsy]
  exact ⟨hr, by rw [hr]; decide⟩

/-- Witness for claim C9 at a concrete environment. -/
theorem token_check_precedes_usage_w :
    runScript envUsageNoToken =
      { events := [Event.print "Error: AIPROXY_TOKEN environment variable not set."],
        exit := .exited 1 } ∧
    printsMsg (runScript envUsageNoToken).events
      "Usage: python autolysis.py <dataset.csv>" = false :=
  token_check_precedes_usage envUsageNoToken rfl (by decide)

/-- Claim C10: a failure of the primary (UTF-8) parse other than a
`UnicodeDecodeError` is caught by neither handler: it propagates as an
uncaught exception, nothing is printed (in particular no
`Error loading dataset` line), and the fallback outcome is never
consulted — the run is the same whatever the fallback would have done. -/
theorem non_decode_failure_uncaught (env : Env) (m : String)
    (htok : tokenFalsy env.token = false) (hargv : env.argv.length = 2)
    (h : env.utf8Load = .otherError m) :
    runScript env = { events := [], exit := .uncaught m } ∧
    (∀ s, printsMsg (runScript env).events s = false) ∧
    (∀ fb, runScript { env with fallbackLoad := fb } =
      { events := [], exit := .uncaught m }) := by
  have hmain : ∀ fb : FallbackOutcome,
      runScript { env with fallbackLoad := fb } =
        { events := [], exit := .uncaught m } := by
    intro fb
    rw [runScript_eq_analyze _ (by simpa using htok) (by simpa using hargv)]
    simp [analyze_csv, h]
  have h1 : runScript env = { events := [], exit := .uncaught m } := by
    rw [runScript_eq_analyze env htok hargv]
    simp [analyze_csv, h]
  exact ⟨h1, fun s => by rw [h1]; rfl, hmain⟩

/-- Witness for claim C10 at a concrete environment. -/
theorem non_decode_failure_uncaught_w :
    runScript { envBase with utf8Load := .otherError "boom" } =
      { events := [], exit := .uncaught "boom" } ∧
    printsMsg (runScript { envBase with utf8Load := .otherError "boom" }).events
      "Error loading dataset: boom" = false ∧
    runScript { envBase with utf8Load := .otherError "boom", fallbackLoad := .err "x" } =
      { events := [], exit := .uncaught "boom" } :=
  ⟨(non_decode_failure_uncaught { envBase with utf8Load := .otherError "boom" }
      "boom" rfl rfl rfl).1,
   (non_decode_failure_uncaught { envBase with utf8Load := .otherError "boom" }
      "boom" rfl rfl rfl).2.1 "Error loading dataset: boom",
   (non_decode_failure_uncaught { envBase with utf8Load := .otherError "boom" }
      "boom" rfl rfl rfl).2.2 (.err "x")⟩

/-- Claim C2: the Loader tries UTF-8 first (printing its success line when
it parses), retries with ISO-8859-1 on a decoding failure (printing the
fallback success line), and when both attempts fail it prints the load
error and exits 1 with an otherwise empty trace — no output file is ever
produced on that path. -/
theorem loader_fallback_behavior (env : Env)
    (htok : tokenFalsy env.token = false) (hargv : env.argv.length = 2) :
    (∀ d, env.utf8Load = .ok d →
        printsMsg (runScript env).events
          ("Successfully loaded dataset: " ++ inputFile env) = true) ∧
    (∀ d, env.utf8Load = .unicodeError → env.fallbackLoad = .ok d →
        printsMsg (runScript env).events
          ("Successfully loaded dataset with ISO-8859-1 encoding: " ++ inputFile env) = true) ∧
    (∀ m, env.utf8Load = .unicodeError → env.fallbackLoad = .err m →
        runScript env =
          { events := [Event.print ("Error loading dataset: " ++ m)],
            exit := .exited 1 }) := by
  rw [runScript_eq_analyze env htok hargv]
  refine ⟨?_, ?_, ?_⟩
  · intro d h
    simp [analyze_csv, h, printsMsg]
  · intro d h1 h2
    simp [analyze_csv, h1, h2, printsMsg]
  · intro m h1 h2
    simp [analyze_csv, h1, h2]

/-- Witness for claim C2 at a concrete environment where both attempts
fail. -/
theorem loader_fallback_behavior_w :
    runScript { envBase with utf8Load := .unicodeError, fallbackLoad := .err "bad line" } =
      { events := [Event.print ("Error loading dataset: " ++ "bad line")],
        exit := .exited 1 } :=
  (loader_fallback_behavior
      { envBase with utf8Load := .unicodeError, fallbackLoad := .err "bad line" }
      rfl rfl).2.2 "bad line" rfl rfl

/-- Claim C3: whenever the remote interaction fails — non-200 status, an
exception from the request, or an exception parsing the response — the
process ends with a nonzero status and `README.md` is never written.
(The hypothesis constrains only the HTTP oracle; every run, on every
path, satisfies the conclusion.) -/
theorem http_failure_no_readme (env : Env) (h : httpBad env.http = true) :
    writesFile (runScript env).events "README.md" = false ∧
    exitsNonzero (runScript env).exit = true := by
  by_cases htok : tokenFalsy env.token = true
  · have hr : runScript env =
        { events := [Event.print "Error: AIPROXY_TOKEN environment variable not set."],
          exit := .exited 1 } := by
      simp [runScript, htok]
    rw [hr]
    exact ⟨rfl, rfl⟩
  · replace htok : tokenFalsy env.token = false := by simpa using htok
    by_cases hargv : env.argv.length = 2
    · rw [runScript_eq_analyze env htok hargv]
      cases hu : env.utf8Load with
      | otherError m => simp [analyze_csv, hu, writesFile, exitsNonzero]
      | ok d =>
          have hn := narrator_httpBad (datasetNameOf (inputFile env))
            (vizRun (datasetNameOf (inputFile env)) d env).imagePaths env h
          simp only [analyze_csv, hu]
          rw [writesFile_cons_print]
          exact ⟨(afterLoad_writesFile _ d env).trans hn.1,
            (afterLoad_exit _ d env) ▸ hn.2⟩
      | unicodeError =>
          cases hf : env.fallbackLoad with
          | err m => simp [analyze_csv, hu, hf, writesFile, exitsNonzero]
          | ok d =>
              have hn := narrator_httpBad (datasetNameOf (inputFile env))
                (vizRun (datasetNameOf (inputFile env)) d env).imagePaths env h
              simp only [analyze_csv, hu, hf]
              rw [writesFile_cons_print]
              exact ⟨(afterLoad_writesFile _ d env).trans hn.1,
                (afterLoad_exit _ d env) ▸ hn.2⟩
    · have hr : runScript env =
          { events := [Event.print "Usage: python autolysis.py <dataset.csv>"],
            exit := .exited 1 } := by
        simp [runScript, htok, hargv]
      rw [hr]
      exact ⟨rfl, rfl⟩

/-- Witness for claim C3 at a concrete environment with a 500 response. -/
theorem http_failure_no_readme_w :
    writesFile (runScript { envBase with http := .resp 500 "oops" (.ok "x") }).events
      "README.md" = false ∧
    exitsNonzero (runScript { envBase with http := .resp 500 "oops" (.ok "x") }).exit = true :=
  http_failure_no_readme { envBase with http := .resp 500 "oops" (.ok "x") } (by decide)

/-- The run refuting claim C4 as stated: the narrative succeeds, all
three images are saved, then the README write fails midway — `open` had
already created and truncated `README.md`, so a partial file is left on
disk. -/
def envMidWriteFail : Env :=
  { envBase with readmeWrite := .midFail "# Analysis of da" "disk full" }

/-- Claim C4 counterexample: in `envMidWriteFail` a fatal report-write
failure strikes after the three images were saved, yet a `README.md`
(holding partial content) is on disk — refuting the claim that on every
such run `README.md` is never produced. -/
theorem fatal_failure_readme_counterexample :
    writesFile (runScript envMidWriteFail).events "README.md" = true ∧
    imagesSaved (runScript envMidWriteFail).events =
      ["data_correlation_heatmap.png", "data_missing_values_heatmap.png",
       "data_boxplot.png"] ∧
    exitsNonzero (runScript envMidWriteFail).exit = true := by
  decide

/-- Claim C4 (amended): when a fatal failure (narrative failure or README
write failure) strikes after the visualization section, the images that
section saved are exactly what the run has written — nothing deletes or
rewrites them — and the run exits nonzero.  `README.md` is never created
when the failure is the narrative or the `open` of the report file; a
mid-write failure leaves a `README.md` holding only the bytes flushed
before the exception.  The complete report is written only on the fully
successful path. -/
theorem fatal_failure_leaves_images (env : Env) (d : Dataset)
    (htok : tokenFalsy env.token = false) (hargv : env.argv.length = 2)
    (hload : loadsDataset env d)
    (hfail : httpBad env.http = true ∨ env.readmeWrite ≠ WriteOutcome.ok) :
    imagesSaved (runScript env).events =
      (vizRun (datasetNameOf (inputFile env)) d env).imagePaths ∧
    exitsNonzero (runScript env).exit = true ∧
    ((httpBad env.http = true ∨ (∃ m, env.readmeWrite = .openFail m)) →
      writesFile (runScript env).events "README.md" = false) ∧
    (∀ p m, httpBad env.http = false → env.readmeWrite = .midFail p m →
      Event.writeFile "README.md" p ∈ (runScript env).events) := by
  rw [runScript_eq_analyze env htok hargv]
  have hexit : exitsNonzero (narratorReporterRun (datasetNameOf (inputFile env))
      (vizRun (datasetNameOf (inputFile env)) d env).imagePaths env).exit = true := by
    rcases hfail with hb | hw
    · exact (narrator_httpBad _ _ env hb).2
    · by_cases hb : httpBad env.http = true
      · exact (narrator_httpBad _ _ env hb).2
      · replace hb : httpBad env.http = false := by simpa using hb
        cases hwc : env.readmeWrite with
        | ok => exact absurd hwc hw
        | openFail m => exact (narrator_openFail _ _ env m hwc).2
        | midFail p m => exact (narrator_midFail _ _ env p m hb hwc).2
  have hnoreadme : (httpBad env.http = true ∨ (∃ m, env.readmeWrite = .openFail m)) →
      writesFile (narratorReporterRun (datasetNameOf (inputFile env))
        (vizRun (datasetNameOf (inputFile env)) d env).imagePaths env).events
        "README.md" = false := by
    rintro (hb | ⟨m, hw⟩)
    · exact (narrator_httpBad _ _ env hb).1
    · exact (narrator_openFail _ _ env m hw).1
  have hmid : ∀ p m, httpBad env.http = false → env.readmeWrite = .midFail p m →
      Event.writeFile "README.md" p ∈ (narratorReporterRun (datasetNameOf (inputFile env))
        (vizRun (datasetNameOf (inputFile env)) d env).imagePaths env).events :=
    fun p m hb hw => (narrator_midFail _ _ env p m hb hw).1
  have hmemlift : ∀ p m, httpBad env.http = false → env.readmeWrite = .midFail p m →
      Event.writeFile "README.md" p ∈ (afterLoad (inputFile env) d env).events := by
    intro p m hb hw
    rw [afterLoad_events]
    exact List.mem_append_right _ (List.mem_cons_of_mem _ (hmid p m hb hw))
  rcases hload with hu | ⟨hu, hf⟩
  · simp only [analyze_csv, hu]
    rw [imagesSaved_cons_print, writesFile_cons_print]
    exact ⟨afterLoad_images _ d env,
      (afterLoad_exit _ d env) ▸ hexit,
      fun h => (afterLoad_writesFile _ d env).trans (hnoreadme h),
      fun p m hb hw => List.mem_cons_of_mem _ (hmemlift p m hb hw)⟩
  · simp only [analyze_csv, hu, hf]
    rw [imagesSaved_cons_print, writesFile_cons_print]
    exact ⟨afterLoad_images _ d env,
      (afterLoad_exit _ d env) ▸ hexit,
      fun h => (afterLoad_writesFile _ d env).trans (hnoreadme h),
      fun p m hb hw => List.mem_cons_of_mem _ (hmemlift p m hb hw)⟩

/-- Witness for claim C4 (amended): a run whose README `open` fails after
all three images were saved — the images are intact, no README appears,
and the run exits nonzero. -/
theorem fatal_failure_leaves_images_w :
    imagesSaved (runScript { envBase with readmeWrite := .openFail "perm denied" }).events =
      (vizRun (datasetNameOf (inputFile { envBase with readmeWrite := .openFail "perm denied" }))
        dsMain { envBase with readmeWrite := .openFail "perm denied" }).imagePaths ∧
    exitsNonzero (runScript { envBase with readmeWrite := .openFail "perm denied" }).exit = true ∧
    writesFile (runScript { envBase with readmeWrite := .openFail "perm denied" }).events
      "README.md" = false := by
  have h := fatal_failure_leaves_images { envBase with readmeWrite := .openFail "perm denied" }
    dsMain rfl rfl (Or.inl rfl) (Or.inr (by decide))
  exact ⟨h.1, h.2.1, h.2.2.1 (Or.inr ⟨"perm denied", rfl⟩)⟩

/-! ### Filename lemmas -/

/-- A basename never contains a path separator. -/
theorem slash_not_mem_basenameList (cs : List Char) : '/' ∉ basenameList cs := by
  intro h
  have h2 : '/' ∈ cs.reverse.takeWhile (fun c => c ≠ '/') := by
    simpa [basenameList] using h
  have h3 := List.mem_takeWhile_imp h2
  simp at h3

/-- The splitext stem only rearranges characters of its input. -/
theorem mem_splitextStemList (cs : List Char) (x : Char)
    (h : x ∈ splitextStemList cs) : x ∈ cs := by
  simp only [splitextStemList] at h
  split at h
  · exact h
  · split at h
    · have h3 := List.mem_reverse.mp h
      have h4 := List.mem_of_mem_drop h3
      exact List.mem_reverse.mp h4
    · exact h

/-- The dataset name never contains a path separator. -/
theorem slash_not_mem_datasetName (f : String) : '/' ∉ (datasetNameOf f).data := by
  intro h
  exact slash_not_mem_basenameList f.data (mem_splitextStemList _ _ h)

/-- `os.path.basename` is the identity on a separator-free path. -/
theorem basenameList_eq_self (cs : List Char) (h : '/' ∉ cs) :
    basenameList cs = cs := by
  unfold basenameList
  rw [List.takeWhile_eq_self_iff.mpr ?_, List.reverse_reverse]
  intro x hx
  have hm : x ∈ cs := List.mem_reverse.mp hx
  simp only [ne_eq, decide_eq_true_eq]
  intro he
  exact h (he ▸ hm)

/-- String-level form of `basenameList_eq_self`. -/
theorem basename_eq_self (s : String) (h : '/' ∉ s.data) : basename s = s := by
  unfold basename
  rw [basenameList_eq_self s.data h]

/-- Appending a separator-free suffix keeps a string separator-free, so
its basename is itself. -/
theorem basename_append_eq_self (name suffix : String)
    (h1 : '/' ∉ name.data) (h2 : '/' ∉ suffix.data) :
    basename (name ++ suffix) = name ++ suffix := by
  apply basename_eq_self
  rw [String.data_append]
  intro h
  rcases List.mem_append.mp h with h | h
  · exact h1 h
  · exact h2 h

/-- The three generated image filenames are their own basenames. -/
theorem basename_images (f : String) :
    basename (corrImage (datasetNameOf f)) = corrImage (datasetNameOf f) ∧
    basename (missingImage (datasetNameOf f)) = missingImage (datasetNameOf f) ∧
    basename (boxImage (datasetNameOf f)) = boxImage (datasetNameOf f) := by
  refine ⟨basename_append_eq_self _ _ (slash_not_mem_datasetName f) (by decide),
    basename_append_eq_self _ _ (slash_not_mem_datasetName f) (by decide),
    basename_append_eq_self _ _ (slash_not_mem_datasetName f) (by decide)⟩

/-- The three generated image filenames are pairwise distinct. -/
theorem images_pairwise_ne (name : String) :
    corrImage name ≠ missingImage name ∧
    corrImage name ≠ boxImage name ∧
    missingImage name ≠ boxImage name := by
  refine ⟨?_, ?_, ?_⟩
  · intro h
    have h2 : name.data ++ "_correlation_heatmap.png".data =
        name.data ++ "_missing_values_heatmap.png".data := by
      have h3 := congrArg String.data h
      simpa [corrImage, missingImage, String.data_append] using h3
    exact absurd (List.append_cancel_left h2) (by decide)
  · intro h
    have h2 : name.data ++ "_correlation_heatmap.png".data =
        name.data ++ "_boxplot.png".data := by
      have h3 := congrArg String.data h
      simpa [corrImage, boxImage, String.data_append] using h3
    exact absurd (List.append_cancel_left h2) (by decide)
  · intro h
    have h2 : name.data ++ "_missing_values_heatmap.png".data =
        name.data ++ "_boxplot.png".data := by
      have h3 := congrArg String.data h
      simpa [missingImage, boxImage, String.data_append] using h3
    exact absurd (List.append_cancel_left h2) (by decide)

/-- Every entry of `image_paths` is one of the three generated names. -/
theorem imagePaths_mem (name : String) (d : Dataset) (env : Env) (p : String)
    (h : p ∈ (vizRun name d env).imagePaths) :
    p = corrImage name ∨ p = missingImage name ∨ p = boxImage name := by
  obtain ⟨tok, argv, u8, fb, cb, mb, bb, ht, rmw⟩ := env
  unfold vizRun at h
  by_cases hne : d.numericEmpty
  · simp [hne] at h
  · cases cb <;> cases mb <;> cases bb <;>
      simp [hne, corrBlockRun, vizBlockRun] at h <;> tauto

/-- Claim C6: `image_paths` is always a sublist (so length at most 3, in
generation order: correlation heatmap, missing-values heatmap, boxplot)
of the three artifact filenames, and each filename is in the list exactly
when that artifact's save succeeded — a failed artifact's filename never
appears. -/
theorem imagePaths_ordered (name : String) (d : Dataset) (env : Env) :
    List.Sublist (vizRun name d env).imagePaths
      [corrImage name, missingImage name, boxImage name] ∧
    (vizRun name d env).imagePaths.length ≤ 3 ∧
    (corrImage name ∈ (vizRun name d env).imagePaths ↔
      savesImage (vizRun name d env).events (corrImage name) = true) ∧
    (missingImage name ∈ (vizRun name d env).imagePaths ↔
      savesImage (vizRun name d env).events (missingImage name) = true) ∧
    (boxImage name ∈ (vizRun name d env).imagePaths ↔
      savesImage (vizRun name d env).events (boxImage name) = true) := by
  have hcm := (images_pairwise_ne name).1
  have hcb := (images_pairwise_ne name).2.1
  have hmb := (images_pairwise_ne name).2.2
  obtain ⟨tok, argv, u8, fb, cb, mb, bb, ht, rmw⟩ := env
  by_cases hne : d.numericEmpty
  · refine ⟨?_, ?_, ?_, ?_, ?_⟩ <;> simp [vizRun, hne, savesImage]
  · cases cb <;> cases mb <;> cases bb <;>
      refine ⟨?_, ?_, ?_, ?_, ?_⟩ <;>
      simp [vizRun, hne, corrBlockRun, vizBlockRun, savesImage,
        hcm, hcb, hmb, Ne.symm hcm, Ne.symm hcb, Ne.symm hmb]

/-- Witness for claim C6 at a concrete run whose boxplot save fails. -/
theorem imagePaths_ordered_w :
    List.Sublist (vizRun "data" dsMain { envBase with boxBlock := .failBeforeSave "x" }).imagePaths
      [corrImage "data", missingImage "data", boxImage "data"] ∧
    (vizRun "data" dsMain { envBase with boxBlock := .failBeforeSave "x" }).imagePaths.length ≤ 3 ∧
    (corrImage "data" ∈ (vizRun "data" dsMain { envBase with boxBlock := .failBeforeSave "x" }).imagePaths ↔
      savesImage (vizRun "data" dsMain { envBase with boxBlock := .failBeforeSave "x" }).events
        (corrImage "data") = true) ∧
    (missingImage "data" ∈ (vizRun "data" dsMain { envBase with boxBlock := .failBeforeSave "x" }).imagePaths ↔
      savesImage (vizRun "data" dsMain { envBase with boxBlock := .failBeforeSave "x" }).events
        (missingImage "data") = true) ∧
    (boxImage "data" ∈ (vizRun "data" dsMain { envBase with boxBlock := .failBeforeSave "x" }).imagePaths ↔
      savesImage (vizRun "data" dsMain { envBase with boxBlock := .failBeforeSave "x" }).events
        (boxImage "data") = true) :=
  imagePaths_ordered "data" dsMain { envBase with boxBlock := .failBeforeSave "x" }

/-- Claim C5: on every successful run the written `README.md` is, in
order: the top-level heading naming the dataset, the fixed section
headings, the narrative (the completion content, stripped) verbatim, the
fixed visualizations heading, and one Markdown image-embed line per entry
of `image_paths` whose alt text and relative path both equal the
filename itself. -/
theorem readme_structure (env : Env) (d : Dataset) (t c : String)
    (htok : tokenFalsy env.token = false) (hargv : env.argv.length = 2)
    (hload : loadsDataset env d)
    (hhttp : env.http = .resp 200 t (.ok c))
    (hw : env.readmeWrite = .ok) :
    Event.writeFile "README.md"
      ("# Analysis of " ++ datasetNameOf (inputFile env) ++ "\n\n" ++
       "## Dataset Insights and Recommendations\n\n" ++
       "### Business Report\n" ++
       c.trim ++
       "\n\n### Visualizations\n" ++
       String.join ((vizRun (datasetNameOf (inputFile env)) d env).imagePaths.map
         (fun p => "![" ++ p ++ "](" ++ p ++ ")\n")))
      ∈ (runScript env).events := by
  have hmap : (vizRun (datasetNameOf (inputFile env)) d env).imagePaths.map imageLine =
      (vizRun (datasetNameOf (inputFile env)) d env).imagePaths.map
        (fun p => "![" ++ p ++ "](" ++ p ++ ")\n") := by
    apply List.map_congr_left
    intro p hp
    rcases imagePaths_mem _ d env p hp with h | h | h <;> subst h <;>
      simp [imageLine, (basename_images (inputFile env)).1,
        (basename_images (inputFile env)).2.1, (basename_images (inputFile env)).2.2]
  have hcontent : readmeContent (datasetNameOf (inputFile env)) c.trim
      (vizRun (datasetNameOf (inputFile env)) d env).imagePaths =
      ("# Analysis of " ++ datasetNameOf (inputFile env) ++ "\n\n" ++
       "## Dataset Insights and Recommendations\n\n" ++
       "### Business Report\n" ++
       c.trim ++
       "\n\n### Visualizations\n" ++
       String.join ((vizRun (datasetNameOf (inputFile env)) d env).imagePaths.map
         (fun p => "![" ++ p ++ "](" ++ p ++ ")\n"))) := by
    unfold readmeContent
    rw [hmap]
  have hmem : Event.writeFile "README.md"
      (readmeContent (datasetNameOf (inputFile env)) c.trim
        (vizRun (datasetNameOf (inputFile env)) d env).imagePaths)
      ∈ (afterLoad (inputFile env) d env).events := by
    rw [afterLoad_events]
    apply List.mem_append_right
    apply List.mem_cons_of_mem
    simp [narratorReporterRun, hhttp, reporterRun, hw]
  rw [runScript_eq_analyze env htok hargv]
  rcases hload with hu | ⟨hu, hf⟩
  · simp only [analyze_csv, hu]
    exact List.mem_cons_of_mem _ (hcontent ▸ hmem)
  · simp only [analyze_csv, hu, hf]
    exact List.mem_cons_of_mem _ (hcontent ▸ hmem)

/-- Witness for claim C5: the fully successful base run with completion
content `"Hello world"`. -/
theorem readme_structure_w :
    Event.writeFile "README.md"
      ("# Analysis of " ++ datasetNameOf (inputFile envBase) ++ "\n\n" ++
       "## Dataset Insights and Recommendations\n\n" ++
       "### Business Report\n" ++
       ("Hello world" : String).trim ++
       "\n\n### Visualizations\n" ++
       String.join ((vizRun (datasetNameOf (inputFile envBase)) dsMain envBase).imagePaths.map
         (fun p => "![" ++ p ++ "](" ++ p ++ ")\n")))
      ∈ (runScript envBase).events :=
  readme_structure envBase dsMain "body" "Hello world" rfl rfl (Or.inl rfl) rfl rfl

/-- The run refuting claim C1 as stated: the correlation matrix is
computed (line 67 completes) and then `plt.savefig` raises, so the
heatmap artifact fails but `correlation_matrix` is already non-None. -/
def envCorrSaveFail : Env :=
  { envBase with corrBlock := .failAfterAssign "savefig failed" }

/-- Claim C1 counterexample: in `envCorrSaveFail` the heatmap was not
generated (no image saved, the error line printed) yet the
CorrelationMatrix variable is non-null, refuting the claimed equivalence
of non-nullness with (numeric columns ∧ heatmap generation succeeded). -/
theorem corrMatrix_iff_heatmap_counterexample :
    ¬ (((vizRun "data" dsMain envCorrSaveFail).corrMatrix.isSome = true) ↔
      (dsMain.numericEmpty = false ∧
        savesImage (vizRun "data" dsMain envCorrSaveFail).events
          (corrImage "data") = true)) ∧
    (vizRun "data" dsMain envCorrSaveFail).corrMatrix.isSome = true ∧
    savesImage (vizRun "data" dsMain envCorrSaveFail).events (corrImage "data") = false ∧
    printsMsg (vizRun "data" dsMain envCorrSaveFail).events
      "Error generating correlation heatmap: savefig failed" = true := by
  decide

/-- Claim C1 (amended): `correlation_matrix` is non-None iff at least one
numeric column exists and the correlation-matrix computation (the
assignment at line 67) completed — heatmap save failure after that point
leaves it non-None; and whenever it is None the Narrator substitutes the
sentinel `N/A` for it in the prompt. -/
theorem corrMatrix_iff_assigned (name : String) (d : Dataset) (env : Env) :
    ((vizRun name d env).corrMatrix.isSome = true ↔
      (d.numericEmpty = false ∧ corrAssigned env.corrBlock = true)) ∧
    ((vizRun name d env).corrMatrix = none →
      ∃ a b, promptFor name d.summaryStr d.missingStr (vizRun name d env).corrMatrix =
        a ++ "**Correlation Matrix:** N/A" ++ b) := by
  constructor
  · obtain ⟨tok, argv, u8, fb, cb, mb, bb, ht, rmw⟩ := env
    by_cases hne : d.numericEmpty
    · simp [vizRun, hne]
    · cases cb <;> simp [vizRun, hne, corrBlockRun, corrAssigned]
  · intro h
    rw [h]
    refine ⟨"\n        Below is the analysis summary for the dataset " ++ name ++
      ":\n        \n        **Summary Statistics:** " ++ d.summaryStr ++
      "\n        **Missing Values:** " ++ d.missingStr ++ "\n        ",
      promptOutro, ?_⟩
    have e1 : ("\n        **Correlation Matrix:** " : String) =
        "\n        " ++ "**Correlation Matrix:** " := by decide
    have e2 : ("**Correlation Matrix:** N/A" : String) =
        "**Correlation Matrix:** " ++ "N/A" := by decide
    simp only [promptFor, promptIntro, e1, e2, String.append_assoc]

/-- Witness for claim C1 (amended) at a concrete run whose correlation
computation itself raises, leaving the matrix None. -/
theorem corrMatrix_iff_assigned_w :
    (((vizRun "data" dsMain { envBase with corrBlock := .failBeforeAssign "corr raised" }).corrMatrix.isSome = true ↔
      (dsMain.numericEmpty = false ∧
        corrAssigned ({ envBase with corrBlock := CorrBlockOutcome.failBeforeAssign "corr raised" } : Env).corrBlock = true)) ∧
    ((vizRun "data" dsMain { envBase with corrBlock := .failBeforeAssign "corr raised" }).corrMatrix = none →
      ∃ a b, promptFor "data" dsMain.summaryStr dsMain.missingStr
        (vizRun "data" dsMain { envBase with corrBlock := .failBeforeAssign "corr raised" }).corrMatrix =
        a ++ "**Correlation Matrix:** N/A" ++ b)) :=
  corrMatrix_iff_assigned "data" dsMain
    { envBase with corrBlock := .failBeforeAssign "corr raised" }

end Autolysis
